import Mathlib

/-!
Shallow embedding of the sqsrouter message-dispatch library.

The embedding translates, from the Go source:
  * the JSON data model needed by envelope validation and parsing
    (`types/types.go`, `encoding/json` behaviour on those struct types),
  * the failure kinds and the two built-in failure policies
    (`policy/policy.go`),
  * the core routing pipeline `coreRoute` and the orchestrating `Route`
    with its middleware chain and outermost panic guard (`router.go`,
    the variant shipped as `src/unnamed/part_008`),
  * the consumer's per-message processing (`consumer/consumer.go`).

Go side effects are made explicit: the per-message `RouteState` (mutated
through a pointer in Go) is threaded as state, panics become a `Res.panicked`
outcome, and every consultation of the failure policy is recorded as an
event in a trace, so that "the policy is consulted n times" is a statement
about the trace.  Machine-level concerns (contexts, locks, logging) carry no
routing semantics and are dropped; the read-lock snapshots in the source mean
the pure functional reading below is faithful for a single `Route` call.
-/

namespace SqsRouter

/-- JSON values, the data model underlying envelope validation and parsing.
Numbers are modelled as integers: no claim depends on fractional values. -/
inductive Json where
  | null : Json
  | bool (b : Bool) : Json
  | num (n : Int) : Json
  | str (s : String) : Json
  | arr (xs : List Json) : Json
  | obj (fields : List (String × Json)) : Json
  deriving Repr

/-- Field lookup in a JSON object.  Go's `encoding/json` keeps the last
occurrence of a duplicated key, hence the left fold that overwrites. -/
def jlookup (fields : List (String × Json)) (k : String) : Option Json :=
  fields.foldl (fun acc p => if p.1 == k then some p.2 else acc) none

/-- Raw message bytes.  `none` models bytes that are not well-formed JSON
(the validator and the decoder both fail on them); `some j` models bytes
whose JSON value is `j`. -/
abbrev Raw := Option Json

/-- `types.MessageMetadata` (types/types.go). -/
structure MessageMetadata where
  Timestamp : String
  Source : String
  MessageID : String
  deriving Repr, DecidableEq

/-- `types.MessageEnvelope` (types/types.go).  `Message` is the raw payload
(`json.RawMessage` keeps the value verbatim). -/
structure MessageEnvelope where
  SchemaVersion : String
  MessageType : String
  MessageVersion : String
  Message : Json
  Metadata : MessageMetadata
  deriving Repr

/-- `encoding/json` decoding of one JSON value into a Go `string` field:
absent or `null` leaves the zero value, a string decodes, anything else is
an unmarshal type error (`none`). -/
def decodeStrField : Option Json → Option String
  | none => some ""
  | some .null => some ""
  | some (.str s) => some s
  | some _ => none

/-- `encoding/json` decoding into `MessageMetadata`. -/
def decodeMetadata : Option Json → Option MessageMetadata
  | none => some ⟨"", "", ""⟩
  | some .null => some ⟨"", "", ""⟩
  | some (.obj fs) => do
      let ts ← decodeStrField (jlookup fs "timestamp")
      let src ← decodeStrField (jlookup fs "source")
      let mid ← decodeStrField (jlookup fs "messageId")
      pure ⟨ts, src, mid⟩
  | some _ => none

/-- `json.Unmarshal` of a JSON value into `MessageEnvelope`.  A top-level
`null` is a no-op on the zero value; a non-object is a type error.  Unknown
keys are ignored; key matching is modelled exact-case (all inputs considered
here use the canonical field casing). -/
def decodeEnvelope : Json → Option MessageEnvelope
  | .null => some ⟨"", "", "", .null, ⟨"", "", ""⟩⟩
  | .obj fs => do
      let sv ← decodeStrField (jlookup fs "schemaVersion")
      let mt ← decodeStrField (jlookup fs "messageType")
      let mv ← decodeStrField (jlookup fs "messageVersion")
      let msg := (jlookup fs "message").getD .null
      let meta ← decodeMetadata (jlookup fs "metadata")
      pure ⟨sv, mt, mv, msg, meta⟩
  | _ => none

/-- `json.Marshal` of `MessageMetadata`, in struct field order.  Marshalling
a struct of plain strings cannot fail in Go, so this is total. -/
def encodeMetadata (m : MessageMetadata) : Json :=
  .obj [("timestamp", .str m.Timestamp), ("source", .str m.Source),
        ("messageId", .str m.MessageID)]

/-- `failure.Kind` / `policy.FailureKind`: where in the pipeline a failure
occurred (policy/policy.go).  Modelled as the closed enumeration of the
eight declared constants. -/
inductive FailureKind where
  | FailNone
  | FailEnvelopeSchema
  | FailEnvelopeParse
  | FailPayloadSchema
  | FailNoHandler
  | FailHandlerError
  | FailHandlerPanic
  | FailMiddlewareError
  deriving Repr, DecidableEq

/-- Go `error` values as they occur in the routing pipeline.
`wrap note inner` models `fmt.Errorf` with a `%w` verb (Unwrap = inner);
`coreFailure` models the tagged sentinel `coreFailureErr` the core uses to
signal an already-policy-decided failure through the middleware chain. -/
inductive GoErr where
  | base (msg : String) : GoErr
  | wrap (note : String) (inner : GoErr) : GoErr
  | coreFailure (kind : FailureKind) (cause : Option GoErr) : GoErr
  deriving Repr

def ErrInvalidEnvelope : GoErr := .base "invalid envelope"
def ErrFailedToParseEnvelope : GoErr := .base "failed to parse envelope"
def ErrInvalidMessagePayload : GoErr := .base "invalid message payload"
def ErrNoHandlerRegistered : GoErr := .base "no handler registered"

/-- Modelled from the spec: the sentinel error wrapped around a recovered
panic value in `Route`'s outermost guard.  `ErrPanic` is referenced by the
router source but its declaration is not among the provided files; the spec
only requires an error "wrapping the panic value". -/
def ErrPanic : GoErr := .base "panic"

/-- `errors.As(err, &coreFailureErr{})`: true iff the error or anything on
its `Unwrap` chain is the tagged core-failure sentinel. -/
def isCoreFailureErr : GoErr → Bool
  | .coreFailure _ _ => true
  | .wrap _ inner => isCoreFailureErr inner
  | .base _ => false

/-- `failure.Result` (policy/policy.go): delete decision plus attached error. -/
structure Result where
  ShouldDelete : Bool
  Error : Option GoErr
  deriving Repr

/-- The `Decide` operation of a failure policy, with the unused context
dropped.  Policies are total Lean functions, which embodies the library
contract that a policy is pure and must not panic. -/
def PolicyFn := FailureKind → Option GoErr → Result → Result

/-- `ImmediateDeletePolicy.Decide` (policy/policy.go lines 46-64). -/
def ImmediateDeletePolicy.Decide : PolicyFn := fun kind inner current =>
  match kind with
  | .FailNone => current
  | .FailEnvelopeSchema | .FailEnvelopeParse | .FailPayloadSchema
  | .FailNoHandler | .FailHandlerPanic =>
      let current := { current with ShouldDelete := true }
      if inner.isSome && current.Error.isNone then
        { current with Error := inner }
      else current
  | .FailMiddlewareError | .FailHandlerError =>
      if inner.isSome && current.Error.isNone then
        { current with Error := inner }
      else current

/-- `SQSRedrivePolicy.Decide` (policy/policy.go lines 70-79). -/
def SQSRedrivePolicy.Decide : PolicyFn := fun kind inner current =>
  if kind = .FailNone then current
  else
    let current := { current with ShouldDelete := false }
    if inner.isSome && current.Error.isNone then
      { current with Error := inner }
    else current

/-- `HandlerResult` (types.go): the handler's raw verdict. -/
structure HandlerResult where
  ShouldDelete : Bool
  Error : Option GoErr
  deriving Repr

/-- `RoutedResult` (types.go): the full post-pipeline outcome. -/
structure RoutedResult where
  MessageType : String
  MessageVersion : String
  HandlerResult : HandlerResult
  MessageID : String
  Timestamp : String
  deriving Repr

/-- Outcome of invoking a user handler: a normal return or a panic
carrying the (stringified) panic value. -/
inductive HandlerOut where
  | normal (r : HandlerResult) : HandlerOut
  | panics (v : String) : HandlerOut

/-- `MessageHandler` (types.go): receives the payload and the marshalled
metadata (context dropped). -/
def Handler := Json → Json → HandlerOut

/-- `RouteState` (types.go): per-message scratch container threaded through
the middleware chain.  The `Handler`/`Schema` reference fields of the Go
struct are omitted: they duplicate the `HandlerExists`/`SchemaExists` flags
and are function-valued, and nothing in the pipeline or guard reads them. -/
structure RouteState where
  Raw : Raw
  Envelope : Option MessageEnvelope
  HandlerKey : String
  HandlerExists : Bool
  SchemaExists : Bool
  Metadata : Option MessageMetadata
  deriving Repr

/-- The fresh state `Route` builds for each message. -/
def initState (raw : Raw) : RouteState :=
  { Raw := raw, Envelope := none, HandlerKey := "", HandlerExists := false,
    SchemaExists := false, Metadata := none }

/-- Observable events of one `Route` call: each consultation of the failure
policy's `Decide`, and the pre/post phases of the identified middlewares
used to state ordering claims. -/
inductive Event where
  | decide (k : FailureKind) : Event
  | enter (i : Nat) : Event
  | exitm (i : Nat) : Event
  deriving Repr, DecidableEq

/-- A computation result: normal value or escaped panic. -/
inductive Res (A : Type) where
  | ok (a : A) : Res A
  | panicked (v : String) : Res A
  deriving Repr

/-- Outcome of running one link of the pipeline: the state as mutated so
far (the Go code shares `*RouteState` across links, so the state survives a
panic), the chronological event trace, and the result. -/
structure EffOut (A : Type) where
  state : RouteState
  trace : List Event
  res : Res A

/-- `HandlerFunc` (types.go): the signature wrapped by middlewares. -/
def HandlerFuncM := RouteState → EffOut (RoutedResult × Option GoErr)

/-- `Middleware` (types.go). -/
def MiddlewareM := HandlerFuncM → HandlerFuncM

/-- The `Router` registry host (types.go), with the compiled schemas
represented by their validation functions and maps by association lists
(Go map keys are unique; first-match lookup is then faithful). -/
structure Router where
  envelopeValid : Json → Bool
  handlers : List (String × Handler)
  schemas : List (String × (Json → Bool))
  routingPolicy : Option (MessageEnvelope → List String → String)
  failurePolicy : PolicyFn
  middlewares : List MiddlewareM

/-- `makeKey` (router.go): `fmt.Sprintf("%s:%s", t, v)`. -/
def makeKey (messageType messageVersion : String) : String :=
  messageType ++ ":" ++ messageVersion

/-- `jsonschema.Validate` + `FormatErrors` against the envelope schema:
bytes that are not JSON fail (validator system error), otherwise the
compiled schema decides. -/
def validateRaw (valid : Json → Bool) : Raw → Bool
  | none => false
  | some j => valid j

/-- `json.Unmarshal(state.Raw, &envelope)`. -/
def parseRaw : Raw → Option MessageEnvelope
  | none => none
  | some j => decodeEnvelope j

def lookupHandler (r : Router) (k : String) : Option Handler :=
  (r.handlers.find? (fun p => p.1 == k)).map (·.2)

def lookupSchema (r : Router) (k : String) : Option (Json → Bool) :=
  (r.schemas.find? (fun p => p.1 == k)).map (·.2)

/-- The available-keys snapshot handed to a routing policy. -/
def availableKeys (r : Router) : List String := r.handlers.map (·.1)

/-- Handler-key decision (router.go lines 141-153): default exact-match key
when no routing policy is set, else the policy's choice. -/
def decideKey (r : Router) (env : MessageEnvelope) : String :=
  match r.routingPolicy with
  | none => makeKey env.MessageType env.MessageVersion
  | some rp => rp env (availableKeys r)

/-- The failure pattern shared by the four core failure sites (envelope
schema, envelope parse, payload schema, no handler): build a provisional
result with `ShouldDelete = false` and error `e`, consult the policy with
`kind`, apply its decision, and return the result together with the tagged
`coreFailureErr` whose cause is the post-policy error. -/
def failWith (pol : PolicyFn) (kind : FailureKind)
    (mt mv mid ts : String) (e : GoErr) (s : RouteState) :
    EffOut (RoutedResult × Option GoErr) :=
  let pr := pol kind (some e) { ShouldDelete := false, Error := some e }
  { state := s
    trace := [.decide kind]
    res := .ok ({ MessageType := mt, MessageVersion := mv,
                  HandlerResult := { ShouldDelete := pr.ShouldDelete, Error := pr.Error },
                  MessageID := mid, Timestamp := ts },
                some (.coreFailure kind pr.Error)) }

/-- Steps 2-5 plus handler invocation of `coreRoute` (router.go lines
124-242), entered once the envelope parsed to `env`. -/
def afterParse (r : Router) (env : MessageEnvelope) (s : RouteState) :
    EffOut (RoutedResult × Option GoErr) :=
  let s1 := { s with Envelope := some env }
  let decided := decideKey r env
  let s2 := { s1 with HandlerKey := decided }
  let handlerOpt := lookupHandler r decided
  let schemaOpt := lookupSchema r decided
  let s3 := { s2 with HandlerExists := handlerOpt.isSome,
                      SchemaExists := schemaOpt.isSome }
  let payloadOK := match schemaOpt with
    | none => true
    | some sv => sv env.Message
  if payloadOK = false then
    failWith r.failurePolicy .FailPayloadSchema env.MessageType env.MessageVersion
      env.Metadata.MessageID env.Metadata.Timestamp
      (.wrap "schema validation failed" ErrInvalidMessagePayload) s3
  else
    match handlerOpt with
    | none =>
        failWith r.failurePolicy .FailNoHandler env.MessageType env.MessageVersion
          env.Metadata.MessageID env.Metadata.Timestamp
          (.wrap ("for " ++ decided) ErrNoHandlerRegistered) s3
    | some h =>
        let meta := env.Metadata
        let s4 := { s3 with Metadata := some meta }
        match h env.Message (encodeMetadata meta) with
        | .panics v => { state := s4, trace := [], res := .panicked v }
        | .normal hr =>
            let rr : RoutedResult :=
              { MessageType := env.MessageType, MessageVersion := env.MessageVersion,
                HandlerResult := hr, MessageID := meta.MessageID,
                Timestamp := meta.Timestamp }
            match hr.Error with
            | some he =>
                let pr := r.failurePolicy .FailHandlerError (some he)
                  { ShouldDelete := hr.ShouldDelete, Error := hr.Error }
                { state := s4, trace := [.decide .FailHandlerError]
                  res := .ok ({ rr with HandlerResult :=
                    { ShouldDelete := pr.ShouldDelete, Error := pr.Error } }, none) }
            | none => { state := s4, trace := [], res := .ok (rr, none) }

/-- `coreRoute` (router.go lines 106-243): the core routing pipeline.
The metadata-marshal failure branch (lines 210-221) is dead in the model:
`json.Marshal` of a struct of plain strings cannot fail. -/
def coreRoute (r : Router) : HandlerFuncM := fun s =>
  if validateRaw r.envelopeValid s.Raw = false then
    failWith r.failurePolicy .FailEnvelopeSchema "unknown" "unknown" "" ""
      (.wrap "schema validation failed" ErrInvalidEnvelope) s
  else
    match parseRaw s.Raw with
    | none =>
        failWith r.failurePolicy .FailEnvelopeParse "unknown" "unknown" "" ""
          (.wrap "unmarshal error" ErrFailedToParseEnvelope) s
    | some env => afterParse r env s

/-- The chain construction of `Route` (router.go lines 258-260): the loop
`for i := len(mws)-1; i >= 0; i--; core = mws[i](core)` is a right fold, so
the first registered middleware ends up outermost. -/
def buildChain : List MiddlewareM → HandlerFuncM → HandlerFuncM
  | [], core => core
  | m :: ms, core => m (buildChain ms core)

/-- The outermost orchestration of `Route` (router.go lines 262-318): run
the wrapped core; on an escaped panic build a provisional result from
whatever envelope fields the shared state holds and consult the policy with
`FailHandlerPanic`; on a tagged core-failure error return the
already-decided result unchanged; on any other error consult the policy
once with `FailMiddlewareError`. -/
def routeGuard (pol : PolicyFn) (chain : HandlerFuncM) (s0 : RouteState) :
    RoutedResult × List Event :=
  let o := chain s0
  match o.res with
  | .panicked v =>
      let mt := match o.state.Envelope with
        | some env => env.MessageType
        | none => "unknown"
      let mv := match o.state.Envelope with
        | some env => env.MessageVersion
        | none => "unknown"
      let mid := match o.state.Envelope with
        | some env => env.Metadata.MessageID
        | none => ""
      let ts := match o.state.Envelope with
        | some env => env.Metadata.Timestamp
        | none => ""
      let e : GoErr := .wrap v ErrPanic
      let pr := pol .FailHandlerPanic (some e) { ShouldDelete := false, Error := some e }
      ({ MessageType := mt, MessageVersion := mv,
         HandlerResult := { ShouldDelete := pr.ShouldDelete, Error := pr.Error },
         MessageID := mid, Timestamp := ts },
       o.trace ++ [.decide .FailHandlerPanic])
  | .ok (rr, some e) =>
      if isCoreFailureErr e then (rr, o.trace)
      else
        let pr := pol .FailMiddlewareError (some e)
          { ShouldDelete := rr.HandlerResult.ShouldDelete, Error := rr.HandlerResult.Error }
        ({ rr with HandlerResult := { ShouldDelete := pr.ShouldDelete, Error := pr.Error } },
         o.trace ++ [.decide .FailMiddlewareError])
  | .ok (rr, none) => (rr, o.trace)

/-- `Route` (router.go lines 246-319): build the chain from the middleware
snapshot around the core and run it under the outermost guard.  The result
type (no error, no panic) is the model of "Route never propagates an error
or panic to its caller". -/
def Route (r : Router) (raw : Raw) : RoutedResult × List Event :=
  routeGuard r.failurePolicy (buildChain r.middlewares (coreRoute r)) (initState raw)

/-- True for policy-consultation events. -/
def isDecide : Event → Bool
  | .decide _ => true
  | _ => false

/-- Number of failure-policy consultations recorded in a trace. -/
def countDecides (t : List Event) : Nat := (t.filter isDecide).length

/-- A standard wrapping middleware with identity pre/post phases, observable
through `enter i` / `exitm i` events: it calls `next` exactly once and, like
the Go middlewares under test, lets a panic from `next` unwind through it
(its post phase then never runs). -/
def simpleMw (i : Nat) : MiddlewareM := fun next s =>
  let o := next s
  match o.res with
  | .ok a => { state := o.state, trace := .enter i :: (o.trace ++ [.exitm i]), res := .ok a }
  | .panicked v => { state := o.state, trace := .enter i :: o.trace, res := .panicked v }

/-- The canonical `EnvelopeSchema` constant (router.go lines 323-334) as a
validation function: the document must be an object, the five required
fields must be present, `schemaVersion`/`messageType`/`messageVersion` must
be strings, and `message`/`metadata` must be objects.  Additional
properties, and the contents of `message` and `metadata`, are
unconstrained. -/
def envelopeSchemaOK : Json → Bool
  | .obj fs =>
      (match jlookup fs "schemaVersion" with | some (.str _) => true | _ => false)
      && (match jlookup fs "messageType" with | some (.str _) => true | _ => false)
      && (match jlookup fs "messageVersion" with | some (.str _) => true | _ => false)
      && (match jlookup fs "message" with | some (.obj _) => true | _ => false)
      && (match jlookup fs "metadata" with | some (.obj _) => true | _ => false)
  | _ => false

/-- `deleteTimeout` (consumer/consumer.go), in seconds. -/
def deleteTimeout : Nat := 5

/-- The externally visible operations `processMessage` performs. -/
inductive ConsumerAction where
  | routeCall (body : Raw) : ConsumerAction
  | deleteMsg (receipt : Option String) (timeoutSec : Nat) : ConsumerAction
  deriving Repr

/-- `Consumer.processMessage` (consumer/consumer.go lines 104-153) as the
list of queue-visible actions it performs, in order: nothing when the body
is absent; otherwise one `Route` call, then the delete (under the 5-second
delete context, with the message's receipt handle) exactly when the routed
result asks for deletion.  Logging carries no queue semantics and is
dropped; the enclosing recover is unreachable since `Route` is total. -/
def processMessage (routeFn : Raw → RoutedResult)
    (body : Option Raw) (receipt : Option String) : List ConsumerAction :=
  match body with
  | none => []
  | some b =>
      let routed := routeFn b
      .routeCall b ::
        (if routed.HandlerResult.ShouldDelete then
           [.deleteMsg receipt deleteTimeout]
         else [])

/-! Concrete fixtures used by witnesses and counterexamples. -/

/-- The scenario-S1 metadata object. -/
def metaS1 : List (String × Json) :=
  [("messageId", .str "id-1"), ("timestamp", .str "2024-01-01T00:00:00Z"),
   ("source", .str "x")]

/-- The scenario-S1 envelope: type `T`, version `v1`, empty payload. -/
def rawS1 : Json :=
  .obj [("schemaVersion", .str "1.0"), ("messageType", .str "T"),
        ("messageVersion", .str "v1"), ("message", .obj []),
        ("metadata", .obj metaS1)]

/-- Fields of an envelope that satisfies the envelope schema (its
`metadata` is an object) yet cannot be decoded into `MessageEnvelope`,
because `metadata.timestamp` is a number where the struct declares a
string. -/
def fieldsC10 : List (String × Json) :=
  [("schemaVersion", .str "1.0"), ("messageType", .str "T"),
   ("messageVersion", .str "v1"), ("message", .obj []),
   ("metadata", .obj [("messageId", .str "id-1"), ("timestamp", .num 5),
                      ("source", .str "x")])]

/-- The schema-valid but undecodable envelope, as a JSON document. -/
def rawC10 : Json := .obj fieldsC10

/-- Handler returning success with a delete verdict. -/
def hOk : Handler := fun _ _ => .normal { ShouldDelete := true, Error := none }

/-- Handler returning a transient failure asking for a retry. -/
def hErr : Handler := fun _ _ =>
  .normal { ShouldDelete := false, Error := some (.base "transient") }

/-- Handler that panics. -/
def hPanic : Handler := fun _ _ => .panics "boom"

/-- A middleware that calls `next` once, discards its internal error, and
returns its own untagged error — the shape of the repository's own
middleware-error tests. -/
def errMw : MiddlewareM := fun next s =>
  let o := next s
  match o.res with
  | .ok (rr, _) => { state := o.state, trace := o.trace,
                     res := .ok (rr, some (.base "mw error")) }
  | .panicked v => { state := o.state, trace := o.trace, res := .panicked v }

/-- Router with the canonical envelope schema, the default policies, and a
given handler set, schema set and middleware list. -/
def mkRouter (hs : List (String × Handler)) (ss : List (String × (Json → Bool)))
    (mws : List MiddlewareM) : Router :=
  { envelopeValid := envelopeSchemaOK, handlers := hs, schemas := ss,
    routingPolicy := none, failurePolicy := ImmediateDeletePolicy.Decide,
    middlewares := mws }

/-! Theorems. -/

/-- C3: For every input (kind, inner, current) with inner non-null, the
Immediate-Delete policy's `Decide` returns: `current` unchanged for kind
None; `{shouldDelete := true, error := current.error if present else inner}`
for the five structural kinds EnvelopeSchema, EnvelopeParse, PayloadSchema,
NoHandler, HandlerPanic; and `{shouldDelete := current.shouldDelete,
error := current.error if present else inner}` for HandlerError and
MiddlewareError. -/
theorem immediateDelete_decide_spec (e : GoErr) (cur : Result) :
    ImmediateDeletePolicy.Decide .FailNone (some e) cur = cur
    ∧ ImmediateDeletePolicy.Decide .FailEnvelopeSchema (some e) cur
        = { ShouldDelete := true, Error := some (cur.Error.getD e) }
    ∧ ImmediateDeletePolicy.Decide .FailEnvelopeParse (some e) cur
        = { ShouldDelete := true, Error := some (cur.Error.getD e) }
    ∧ ImmediateDeletePolicy.Decide .FailPayloadSchema (some e) cur
        = { ShouldDelete := true, Error := some (cur.Error.getD e) }
    ∧ ImmediateDeletePolicy.Decide .FailNoHandler (some e) cur
        = { ShouldDelete := true, Error := some (cur.Error.getD e) }
    ∧ ImmediateDeletePolicy.Decide .FailHandlerPanic (some e) cur
        = { ShouldDelete := true, Error := some (cur.Error.getD e) }
    ∧ ImmediateDeletePolicy.Decide .FailHandlerError (some e) cur
        = { ShouldDelete := cur.ShouldDelete, Error := some (cur.Error.getD e) }
    ∧ ImmediateDeletePolicy.Decide .FailMiddlewareError (some e) cur
        = { ShouldDelete := cur.ShouldDelete, Error := some (cur.Error.getD e) } := by
  rcases cur with ⟨sd, he⟩
  cases he <;> simp [ImmediateDeletePolicy.Decide]

/-- C4: For every input (kind, inner, current), the Queue-Redrive policy's
`Decide` returns `current` unchanged when kind is None, and for every other
failure kind returns a decision with `shouldDelete = false`, attaching
`inner` as the error exactly when `current` carries no error; in particular
the returned `shouldDelete` is false for every failure kind other than
None. -/
theorem sqsRedrive_decide_spec (inner : Option GoErr) (cur : Result) :
    SQSRedrivePolicy.Decide .FailNone inner cur = cur
    ∧ ∀ k, k ≠ FailureKind.FailNone →
        SQSRedrivePolicy.Decide k inner cur =
          { ShouldDelete := false,
            Error := match cur.Error with | some x => some x | none => inner } := by
  constructor
  · simp [SQSRedrivePolicy.Decide]
  · intro k hk
    rcases cur with ⟨sd, he⟩
    cases he <;> cases inner <;> simp [SQSRedrivePolicy.Decide, hk]

/-- Witness for C4 at a concrete failure kind and decision. -/
theorem sqsRedrive_decide_spec_witness :
    SQSRedrivePolicy.Decide .FailEnvelopeSchema (some (GoErr.base "boom"))
        { ShouldDelete := true, Error := none }
      = { ShouldDelete := false, Error := some (GoErr.base "boom") } :=
  (sqsRedrive_decide_spec (some (GoErr.base "boom"))
      { ShouldDelete := true, Error := none }).2
    .FailEnvelopeSchema (by decide)

/-- C1: For every raw input and every registered handler and middleware
(including ones that panic), `Route` returns a `RoutedResult` and never
propagates a panic or error to its caller — in the model, `Route` is a
total function into `RoutedResult`, with no error in its return type.  When
a panic escapes the middleware-wrapped core, the outermost guard recovers
it and produces a result whose decision is exactly the failure policy's
answer for kind `FailHandlerPanic` (the policy being a total function
embodies the precondition that it does not itself panic), with the envelope
fields taken from the shared per-message state. -/
theorem route_recovers_panic (r : Router) (raw : Raw) (st : RouteState)
    (tr : List Event) (v : String)
    (h : buildChain r.middlewares (coreRoute r) (initState raw)
           = ⟨st, tr, .panicked v⟩) :
    Route r raw =
      ({ MessageType := match st.Envelope with
           | some env => env.MessageType
           | none => "unknown"
         MessageVersion := match st.Envelope with
           | some env => env.MessageVersion
           | none => "unknown"
         HandlerResult :=
           { ShouldDelete := (r.failurePolicy .FailHandlerPanic
               (some (.wrap v ErrPanic))
               { ShouldDelete := false, Error := some (.wrap v ErrPanic) }).ShouldDelete
             Error := (r.failurePolicy .FailHandlerPanic
               (some (.wrap v ErrPanic))
               { ShouldDelete := false, Error := some (.wrap v ErrPanic) }).Error }
         MessageID := match st.Envelope with
           | some env => env.Metadata.MessageID
           | none => ""
         Timestamp := match st.Envelope with
           | some env => env.Metadata.Timestamp
           | none => "" },
       tr ++ [.decide .FailHandlerPanic]) := by
  unfold Route routeGuard
  rw [h]

/-- The pipeline state after handler resolution on the S1 envelope:
envelope parsed, handler resolved, metadata derived. -/
def stS1W : RouteState :=
  { Raw := some rawS1
    Envelope := some ⟨"1.0", "T", "v1", .obj [],
      ⟨"2024-01-01T00:00:00Z", "x", "id-1"⟩⟩
    HandlerKey := "T:v1"
    HandlerExists := true
    SchemaExists := false
    Metadata := some ⟨"2024-01-01T00:00:00Z", "x", "id-1"⟩ }

/-- Witness for C1: a handler that panics with value "boom" on the S1
envelope is recovered and classified as a handler panic. -/
theorem route_recovers_panic_witness :
    Route (mkRouter [("T:v1", hPanic)] [] []) (some rawS1) =
      ({ MessageType := "T", MessageVersion := "v1"
         HandlerResult := { ShouldDelete := true
                            Error := some (.wrap "boom" ErrPanic) }
         MessageID := "id-1", Timestamp := "2024-01-01T00:00:00Z" },
       [.decide .FailHandlerPanic]) :=
  route_recovers_panic (mkRouter [("T:v1", hPanic)] [] []) (some rawS1)
    stS1W [] "boom" (by rfl)

/-- C2: when the middleware chain hands `Route` the tagged core-failure
error, `Route` returns the already-policy-decided result unchanged and
consults the failure policy zero further times (the trace is exactly the
chain's trace); when the chain returns any other non-nil error, `Route`
consults the policy exactly once with kind `FailMiddlewareError` and
applies its decision to the current result. -/
theorem route_tagged_vs_untagged (r : Router) (raw : Raw) (st : RouteState)
    (tr : List Event) (rr : RoutedResult) (e : GoErr)
    (h : buildChain r.middlewares (coreRoute r) (initState raw)
           = ⟨st, tr, .ok (rr, some e)⟩) :
    (isCoreFailureErr e = true → Route r raw = (rr, tr))
    ∧ (isCoreFailureErr e = false →
        Route r raw =
          ({ rr with HandlerResult :=
               { ShouldDelete := (r.failurePolicy .FailMiddlewareError (some e)
                   { ShouldDelete := rr.HandlerResult.ShouldDelete
                     Error := rr.HandlerResult.Error }).ShouldDelete
                 Error := (r.failurePolicy .FailMiddlewareError (some e)
                   { ShouldDelete := rr.HandlerResult.ShouldDelete
                     Error := rr.HandlerResult.Error }).Error } },
           tr ++ [.decide .FailMiddlewareError])) := by
  constructor
  · intro htag
    unfold Route routeGuard
    rw [h]
    simp [htag]
  · intro htag
    unfold Route routeGuard
    rw [h]
    simp [htag]

/-- The S1 envelope as the pipeline decodes it. -/
def envS1 : MessageEnvelope :=
  ⟨"1.0", "T", "v1", .obj [], ⟨"2024-01-01T00:00:00Z", "x", "id-1"⟩⟩

/-- Chain state of the no-handler run on the S1 envelope. -/
def stNoHW : RouteState := { stS1W with HandlerExists := false, Metadata := none }

/-- Policy-decided result of the no-handler run on the S1 envelope. -/
def rrNoHW : RoutedResult :=
  { MessageType := "T", MessageVersion := "v1"
    HandlerResult := { ShouldDelete := true
                       Error := some (.wrap "for T:v1" ErrNoHandlerRegistered) }
    MessageID := "id-1", Timestamp := "2024-01-01T00:00:00Z" }

/-- Tagged error of the no-handler run on the S1 envelope. -/
def eNoHW : GoErr :=
  .coreFailure .FailNoHandler (some (.wrap "for T:v1" ErrNoHandlerRegistered))

/-- Result of the retry-handler run (core already consulted the policy for
the handler error; the error stays the handler's). -/
def rrMwW : RoutedResult :=
  { MessageType := "T", MessageVersion := "v1"
    HandlerResult := { ShouldDelete := false, Error := some (.base "transient") }
    MessageID := "id-1", Timestamp := "2024-01-01T00:00:00Z" }

/-- Witness for C2, both branches: a tagged no-handler failure passes
through `Route` untouched with no further consultation, and a middleware
error on top of a handler-error run adds exactly one `FailMiddlewareError`
consultation. -/
theorem route_tagged_vs_untagged_witness :
    Route (mkRouter [] [] []) (some rawS1) = (rrNoHW, [.decide .FailNoHandler])
    ∧ Route (mkRouter [("T:v1", hErr)] [] [errMw]) (some rawS1)
        = (rrMwW, [.decide .FailHandlerError, .decide .FailMiddlewareError]) :=
  ⟨(route_tagged_vs_untagged (mkRouter [] [] []) (some rawS1) stNoHW
      [.decide .FailNoHandler] rrNoHW eNoHW (by rfl)).1 (by rfl),
   (route_tagged_vs_untagged (mkRouter [("T:v1", hErr)] [] [errMw]) (some rawS1)
      stS1W [.decide .FailHandlerError] rrMwW (.base "mw error") (by rfl)).2 (by rfl)⟩

/-- C5: payload schema validation runs before the handler-existence check.
For every message whose envelope validates and parses, when the selected
key has a registered payload schema but no registered handler, a failing
payload yields the `FailPayloadSchema` failure (the policy is consulted
exactly once, with that kind) and only a passing payload yields the
`FailNoHandler` failure. -/
theorem payload_schema_before_no_handler (r : Router) (j : Json)
    (env : MessageEnvelope) (sv : Json → Bool)
    (hval : r.envelopeValid j = true)
    (hdec : decodeEnvelope j = some env)
    (hs : lookupSchema r (decideKey r env) = some sv)
    (hh : lookupHandler r (decideKey r env) = none) :
    (sv env.Message = false →
        (coreRoute r (initState (some j))).trace = [.decide .FailPayloadSchema]
        ∧ ∃ rr c, (coreRoute r (initState (some j))).res
            = .ok (rr, some (.coreFailure .FailPayloadSchema c)))
    ∧ (sv env.Message = true →
        (coreRoute r (initState (some j))).trace = [.decide .FailNoHandler]
        ∧ ∃ rr c, (coreRoute r (initState (some j))).res
            = .ok (rr, some (.coreFailure .FailNoHandler c))) := by
  have hcore : coreRoute r (initState (some j))
      = afterParse r env (initState (some j)) := by
    unfold coreRoute
    simp [validateRaw, parseRaw, initState, hval, hdec]
  constructor
  · intro hpay
    rw [hcore]
    unfold afterParse
    simp [hs, hh, hpay, failWith]
  · intro hpay
    rw [hcore]
    unfold afterParse
    simp [hs, hh, hpay, failWith]

/-- A payload schema requiring a `userId` property. -/
def svUserId : Json → Bool := fun payload =>
  match payload with
  | .obj fs => (jlookup fs "userId").isSome
  | _ => false

/-- Witness for C5: with `svUserId` registered for `T:v1` and no handler,
the S1 envelope (empty payload) fails payload validation first and is
classified `FailPayloadSchema`, not `FailNoHandler`. -/
theorem payload_schema_before_no_handler_witness :
    (coreRoute (mkRouter [] [("T:v1", svUserId)] []) (initState (some rawS1))).trace
        = [.decide .FailPayloadSchema]
    ∧ ∃ rr c, (coreRoute (mkRouter [] [("T:v1", svUserId)] [])
        (initState (some rawS1))).res
        = .ok (rr, some (.coreFailure .FailPayloadSchema c)) :=
  (payload_schema_before_no_handler (mkRouter [] [("T:v1", svUserId)] [])
    rawS1 envS1 svUserId (by rfl) (by rfl) (by rfl) (by rfl)).1 (by rfl)

/-- Shape of every `coreRoute` outcome: a single policy consultation with a
matching tagged error, a single consultation with no internal error (the
handler-error site), or no consultation at all (success, or a handler
panic that abandons the pipeline). -/
theorem coreRoute_cases (r : Router) (s : RouteState) :
    (∃ k rr c, (coreRoute r s).trace = [Event.decide k]
        ∧ (coreRoute r s).res = .ok (rr, some (.coreFailure k c)))
    ∨ (∃ k rr, (coreRoute r s).trace = [Event.decide k]
        ∧ (coreRoute r s).res = .ok (rr, none))
    ∨ ((coreRoute r s).trace = []
        ∧ ((∃ rr, (coreRoute r s).res = .ok (rr, none))
            ∨ ∃ v, (coreRoute r s).res = .panicked v)) := by
  unfold coreRoute afterParse failWith
  split
  · left; exact ⟨_, _, _, rfl, rfl⟩
  · split
    · left; exact ⟨_, _, _, rfl, rfl⟩
    · dsimp only
      split
      · left; exact ⟨_, _, _, rfl, rfl⟩
      · split
        · left; exact ⟨_, _, _, rfl, rfl⟩
        · split
          · right; right; exact ⟨rfl, .inr ⟨_, rfl⟩⟩
          · split
            · right; left; exact ⟨_, _, rfl, rfl⟩
            · right; right; exact ⟨rfl, .inl ⟨_, rfl⟩⟩

/-- Appending one consultation event. -/
theorem countDecides_append_decide (t : List Event) (k : FailureKind) :
    countDecides (t ++ [Event.decide k]) = countDecides t + 1 := by
  simp [countDecides, List.filter_append, isDecide]

/-- C6 counterexample: the claim "the failure policy's Decide is invoked at
most once per Route call on the failure path, whatever combination of
handler error and middleware error occurs" is false on the code.  With the
default policy, a handler that returns a retry error and a middleware that
then returns its own error, one `Route` call consults the policy twice:
once with `FailHandlerError` inside the core and once with
`FailMiddlewareError` in the outer orchestration. -/
theorem policy_consulted_twice_ctr :
    ¬ (countDecides
        (Route (mkRouter [("T:v1", hErr)] [] [errMw]) (some rawS1)).2 ≤ 1) := by
  have h : Route (mkRouter [("T:v1", hErr)] [] [errMw]) (some rawS1)
      = (rrMwW, [.decide .FailHandlerError, .decide .FailMiddlewareError]) := by rfl
  rw [h]
  simp [countDecides, isDecide]

/-- C6 amended: within a single `Route` call the core pipeline consults the
failure policy at most once, and the outer orchestration of `Route` adds at
most one further consultation to those of the middleware-wrapped chain;
hence on a router with no registered middlewares the policy is consulted at
most once per `Route` call.  (The original "at most once per message"
fails when a handler error inside the core is followed by a middleware
error, as the counterexample shows.) -/
theorem policy_consultations_bounded (r : Router) (raw : Raw)
    (pol : PolicyFn) (chain : HandlerFuncM) (s0 : RouteState) :
    (r.middlewares = [] → countDecides (Route r raw).2 ≤ 1)
    ∧ countDecides (routeGuard pol chain s0).2
        ≤ countDecides (chain s0).trace + 1 := by
  constructor
  · intro hmw
    show countDecides
      (routeGuard r.failurePolicy (buildChain r.middlewares (coreRoute r))
        (initState raw)).2 ≤ 1
    rw [hmw]
    show countDecides
      (routeGuard r.failurePolicy (coreRoute r) (initState raw)).2 ≤ 1
    have hcases := coreRoute_cases r (initState raw)
    rcases ho : coreRoute r (initState raw) with ⟨st, tr, res⟩
    rw [ho] at hcases
    dsimp only at hcases
    unfold routeGuard
    rw [ho]
    dsimp only
    rcases hcases with ⟨k, rr, c, htr, hres⟩ | ⟨k, rr, htr, hres⟩
      | ⟨htr, ⟨rr, hres⟩ | ⟨v, hres⟩⟩ <;> subst htr <;> subst hres <;>
      simp [isCoreFailureErr, countDecides, isDecide]
  · rcases ho : chain s0 with ⟨st, tr, res⟩
    unfold routeGuard
    rw [ho]
    dsimp only
    rcases res with ⟨rr, _ | e⟩ | v
    · simp
    · by_cases htag : isCoreFailureErr e = true
      · simp [htag]
      · simp [htag, countDecides_append_decide]
    · simp [countDecides_append_decide]

/-- Witness for the amended C6 at a concrete no-middleware router and a
concrete guard run. -/
theorem policy_consultations_bounded_witness :
    countDecides (Route (mkRouter [("T:v1", hOk)] [] []) (some rawS1)).2 ≤ 1
    ∧ countDecides
        (routeGuard ImmediateDeletePolicy.Decide
          (coreRoute (mkRouter [] [] [])) (initState (some rawS1))).2
        ≤ countDecides
            ((coreRoute (mkRouter [] [] [])) (initState (some rawS1))).trace + 1 :=
  ⟨(policy_consultations_bounded (mkRouter [("T:v1", hOk)] [] []) (some rawS1)
      ImmediateDeletePolicy.Decide (coreRoute (mkRouter [] [] []))
      (initState (some rawS1))).1 rfl,
   (policy_consultations_bounded (mkRouter [("T:v1", hOk)] [] []) (some rawS1)
      ImmediateDeletePolicy.Decide (coreRoute (mkRouter [] [] []))
      (initState (some rawS1))).2⟩

/-- Folding identified wrapping middlewares over a core that returns
normally: pre-phases fire in list order, post-phases in reverse order, and
state and result pass through unchanged. -/
theorem simpleMw_ok (i : Nat) (next : HandlerFuncM) (s st : RouteState)
    (tr : List Event) (a : RoutedResult × Option GoErr)
    (h : next s = ⟨st, tr, .ok a⟩) :
    simpleMw i next s = ⟨st, .enter i :: (tr ++ [.exitm i]), .ok a⟩ := by
  unfold simpleMw
  rw [h]

theorem buildChain_simpleMw (ids : List Nat) (core : HandlerFuncM)
    (s st : RouteState) (tr : List Event) (a : RoutedResult × Option GoErr)
    (h : core s = ⟨st, tr, .ok a⟩) :
    buildChain (ids.map simpleMw) core s
      = ⟨st, ids.map Event.enter ++ tr ++ (ids.map Event.exitm).reverse, .ok a⟩ := by
  induction ids with
  | nil => simpa using h
  | cons i rest ih =>
      rw [List.map_cons]
      show simpleMw i (buildChain (rest.map simpleMw) core) s = _
      rw [simpleMw_ok i _ s _ _ a ih]
      simp

/-- C7: for every message routed through a router whose registered
middlewares are the identified wrappers `m1..mn` in that order, every
middleware runs exactly once per `Route` call — whether or not a handler
exists and whether or not validation fails, since the core returns
normally in all those cases — with pre-call phases in registration order
and post-call phases in reverse registration order: the first registered
middleware is outermost, `buildChain` being the right-to-left fold of
`Route`.  The full `Route` trace extends the chain trace only by
policy-consultation events. -/
theorem middleware_order (r : Router) (ids : List Nat) (raw : Raw)
    (st : RouteState) (tr : List Event) (a : RoutedResult × Option GoErr)
    (hm : r.middlewares = ids.map simpleMw)
    (h : coreRoute r (initState raw) = ⟨st, tr, .ok a⟩) :
    buildChain (ids.map simpleMw) (coreRoute r) (initState raw)
      = ⟨st, ids.map Event.enter ++ tr ++ (ids.map Event.exitm).reverse, .ok a⟩
    ∧ ∃ tail, (Route r raw).2
          = (ids.map Event.enter ++ tr ++ (ids.map Event.exitm).reverse) ++ tail
        ∧ ∀ e ∈ tail, isDecide e = true := by
  have hchain := buildChain_simpleMw ids (coreRoute r) (initState raw) st tr a h
  refine ⟨hchain, ?_⟩
  show ∃ tail,
      (routeGuard r.failurePolicy (buildChain r.middlewares (coreRoute r))
        (initState raw)).2 = _ ∧ _
  rw [hm]
  unfold routeGuard
  rw [hchain]
  dsimp only
  rcases a with ⟨rr, _ | e⟩
  · exact ⟨[], by simp, by simp⟩
  · by_cases htag : isCoreFailureErr e = true
    · simp only [htag, if_true]
      exact ⟨[], by simp, by simp⟩
    · simp only [htag, if_false]
      refine ⟨[.decide .FailMiddlewareError], by simp, ?_⟩
      intro ev hev
      simp at hev
      simp [hev, isDecide]

/-- Witness for C7: two identified middlewares around a router with no
handlers still both run, wrapping the no-handler core failure in order
1-2-core-2-1. -/
theorem middleware_order_witness :
    buildChain ([1, 2].map simpleMw)
        (coreRoute (mkRouter [] [] [simpleMw 1, simpleMw 2]))
        (initState (some rawS1))
      = ⟨stNoHW, [.enter 1, .enter 2, .decide .FailNoHandler, .exitm 2, .exitm 1],
          .ok (rrNoHW, some eNoHW)⟩
    ∧ ∃ tail, (Route (mkRouter [] [] [simpleMw 1, simpleMw 2]) (some rawS1)).2
          = [.enter 1, .enter 2, .decide .FailNoHandler, .exitm 2, .exitm 1] ++ tail
        ∧ ∀ e ∈ tail, isDecide e = true :=
  middleware_order (mkRouter [] [] [simpleMw 1, simpleMw 2]) [1, 2]
    (some rawS1) stNoHW [.decide .FailNoHandler] (rrNoHW, some eNoHW)
    rfl (by rfl)

/-- C8: on the success path — envelope validates and parses, handler
resolved, payload validation passes, handler returns without error — the
`RoutedResult` carries the envelope's `messageType`, `messageVersion`,
`metadata.messageId` and `metadata.timestamp` verbatim and embeds the
handler's `HandlerResult` unchanged, with no policy consultation and no
internal error. -/
theorem success_roundtrip (r : Router) (j : Json) (env : MessageEnvelope)
    (h : Handler) (hr : HandlerResult)
    (hval : r.envelopeValid j = true)
    (hdec : decodeEnvelope j = some env)
    (hh : lookupHandler r (decideKey r env) = some h)
    (hpOK : (match lookupSchema r (decideKey r env) with
             | none => true
             | some sv => sv env.Message) = true)
    (hrun : h env.Message (encodeMetadata env.Metadata) = .normal hr)
    (herr : hr.Error = none) :
    coreRoute r (initState (some j))
      = ⟨{ Raw := some j, Envelope := some env,
           HandlerKey := decideKey r env, HandlerExists := true,
           SchemaExists := (lookupSchema r (decideKey r env)).isSome,
           Metadata := some env.Metadata },
         [],
         .ok ({ MessageType := env.MessageType,
                MessageVersion := env.MessageVersion,
                HandlerResult := hr,
                MessageID := env.Metadata.MessageID,
                Timestamp := env.Metadata.Timestamp }, none)⟩ := by
  have hcore : coreRoute r (initState (some j))
      = afterParse r env (initState (some j)) := by
    unfold coreRoute
    simp [validateRaw, parseRaw, initState, hval, hdec]
  rw [hcore]
  unfold afterParse
  simp [hh, hpOK, hrun, herr, initState]

/-- The handler result of the S1 happy path. -/
def rrOkW : RoutedResult :=
  { MessageType := "T", MessageVersion := "v1"
    HandlerResult := { ShouldDelete := true, Error := none }
    MessageID := "id-1", Timestamp := "2024-01-01T00:00:00Z" }

/-- Witness for C8: the S1 scenario — handler for `T:v1` returning
`{shouldDelete := true, error := none}` — yields the round-tripped result. -/
theorem success_roundtrip_witness :
    coreRoute (mkRouter [("T:v1", hOk)] [] []) (initState (some rawS1))
      = ⟨stS1W, [], .ok (rrOkW, none)⟩ :=
  success_roundtrip (mkRouter [("T:v1", hOk)] [] []) rawS1 envS1 hOk
    { ShouldDelete := true, Error := none }
    (by rfl) (by rfl) (by rfl) (by rfl) (by rfl) (by rfl)

/-- C9: the consumer's per-message processing issues the queue delete for
the message's receipt, under the separate 5-second delete context, exactly
when the routed result's `handlerResult.shouldDelete` is true; when the
body is absent it performs nothing at all (in particular `Route` is not
called), and when `shouldDelete` is false no delete is issued. -/
theorem consumer_delete_iff (routeFn : Raw → RoutedResult)
    (body : Option Raw) (receipt : Option String) :
    (body = none → processMessage routeFn body receipt = [])
    ∧ (∀ b, body = some b →
        (ConsumerAction.deleteMsg receipt deleteTimeout
            ∈ processMessage routeFn body receipt
          ↔ (routeFn b).HandlerResult.ShouldDelete = true))
    ∧ (∀ b, body = some b →
        ConsumerAction.routeCall b ∈ processMessage routeFn body receipt) := by
  refine ⟨fun hb => by simp [processMessage, hb], fun b hb => ?_, fun b hb => ?_⟩
  · subst hb
    by_cases hsd : (routeFn b).HandlerResult.ShouldDelete = true
    · simp [processMessage, hsd]
    · simp [processMessage, hsd]
  · subst hb
    by_cases hsd : (routeFn b).HandlerResult.ShouldDelete = true
    · simp [processMessage, hsd]
    · simp [processMessage, hsd]

/-- Witness for C9: a deliverable S1 message through the happy-path router
is routed and then deleted under the 5-second delete context. -/
theorem consumer_delete_iff_witness :
    ConsumerAction.deleteMsg (some "r-1") deleteTimeout
      ∈ processMessage
          (fun b => (Route (mkRouter [("T:v1", hOk)] [] []) b).1)
          (some (some rawS1)) (some "r-1") :=
  ((consumer_delete_iff
      (fun b => (Route (mkRouter [("T:v1", hOk)] [] []) b).1)
      (some (some rawS1)) (some "r-1")).2.1
    (some rawS1) rfl).mpr (by rfl)

/-- C10: there is an input that passes envelope schema validation yet fails
the envelope parse step.  `rawC10` carries well-typed `messageType` and
`messageVersion` strings, its `metadata` is an object (all the schema
requires) with a numeric `timestamp`, so schema validation succeeds while
decoding into the typed envelope fails; `Route` then classifies the message
as `FailEnvelopeParse` with `messageType` and `messageVersion` reported as
"unknown". -/
theorem envelope_schema_parse_gap :
    envelopeSchemaOK rawC10 = true
    ∧ jlookup fieldsC10 "messageType" = some (.str "T")
    ∧ jlookup fieldsC10 "messageVersion" = some (.str "v1")
    ∧ decodeEnvelope rawC10 = none
    ∧ Route (mkRouter [] [] []) (some rawC10)
        = ({ MessageType := "unknown", MessageVersion := "unknown"
             HandlerResult :=
               { ShouldDelete := true,
                 Error := some (.wrap "unmarshal error" ErrFailedToParseEnvelope) }
             MessageID := "", Timestamp := "" },
           [.decide .FailEnvelopeParse]) :=
  ⟨rfl, rfl, rfl, rfl, rfl⟩

end SqsRouter
